import Mathlib

/-!
Shallow embedding of src/src/metadata.cc: the asynchronous metadata-extraction
worker (class MetadataWorker) and its submission entry point
(NAN_METHOD(metadata)).  External collaborators — the libvips decode engine,
the helper functions from common.cc, and the MetadataBaton declaration from
metadata.h — are not part of the translated file; where their behaviour is
needed it is modelled from the specification and marked as such.

Side-effecting steps (atomic counter operations, buffer pinning, resource
release, the callback invocation) are embedded as ordered event traces, so
that ordering and exactly-once claims become statements about lists.
-/

namespace Sharp

/-- Image formats the decode engine can detect.  The enumeration
`sharp::ImageType` is declared in common.h, outside the translated file;
metadata.cc relies only on the distinguished `UNKNOWN` member (line 31), so
the remaining constructors are modelled from the spec's list of recognized
formats.  Only `UNKNOWN` versus not-`UNKNOWN` matters to the worker. -/
inductive ImageType where
  | JPEG
  | PNG
  | WEBP
  | TIFF
  | GIF
  | SVG
  | PDF
  | MAGICK
  | UNKNOWN
  deriving DecidableEq, Repr

/-- Modelled from the spec: the format-identifier string attached to a
detected image type (`sharp::ImageTypeId`, common.cc, outside src/).  The
spec's result table lists `format` as an always-present string naming the
detected format; every identifier is non-empty. -/
def ImageTypeId : ImageType → String
  | ImageType.JPEG => "jpeg"
  | ImageType.PNG => "png"
  | ImageType.WEBP => "webp"
  | ImageType.TIFF => "tiff"
  | ImageType.GIF => "gif"
  | ImageType.SVG => "svg"
  | ImageType.PDF => "pdf"
  | ImageType.MAGICK => "magick"
  | ImageType.UNKNOWN => "unknown"

/-- Modelled from the spec: the opened image handle returned by the decode
engine's header-open.  Per the collaborator contract it exposes width, height,
channel count, colorspace, and accessor predicates for density presence and
value, profile presence, alpha presence, EXIF orientation, and raw EXIF/ICC
blob retrieval (bytes plus length).  Blobs are byte lists; `none` models
`get_typeof(...) != VIPS_TYPE_BLOB`. -/
structure VImage where
  width : Nat
  height : Nat
  interpretationNick : String
  bands : Nat
  densityMeta : Option Nat
  profileMeta : Bool
  alphaMeta : Bool
  orientationMeta : Nat
  exifBlob : Option (List Nat)
  iccBlob : Option (List Nat)
  deriving DecidableEq, Repr

/-- The default-constructed `vips::VImage` of metadata.cc line 30.  It is only
live on the failure path, where none of its accessors are read. -/
def defaultVImage : VImage :=
  { width := 0, height := 0, interpretationNick := "", bands := 0,
    densityMeta := none, profileMeta := false, alphaMeta := false,
    orientationMeta := 0, exifBlob := none, iccBlob := none }

/-- Modelled from the spec: `sharp::HasDensity` (common.cc, outside src/), the
decode engine's density-presence predicate. -/
def HasDensity (image : VImage) : Bool := image.densityMeta.isSome

/-- Modelled from the spec: `sharp::GetDensity` (common.cc, outside src/), the
reported density value. -/
def GetDensity (image : VImage) : Nat := image.densityMeta.getD 0

/-- Modelled from the spec: `sharp::HasProfile` (common.cc, outside src/),
the embedded-colour-profile presence predicate. -/
def HasProfile (image : VImage) : Bool := image.profileMeta

/-- Modelled from the spec: `sharp::HasAlpha` (common.cc, outside src/), the
alpha-channel presence predicate. -/
def HasAlpha (image : VImage) : Bool := image.alphaMeta

/-- Modelled from the spec: `sharp::ExifOrientation` (common.cc, outside
src/), the EXIF-derived orientation value (0 when absent). -/
def ExifOrientation (image : VImage) : Nat := image.orientationMeta

/-- The exception type thrown by the decode engine (`vips::VError`); the
worker only consumes its message via `err.what()` (metadata.cc line 35). -/
structure VError where
  what : String
  deriving DecidableEq, Repr

/-- The mutable result holder.  Its fields are exactly those metadata.cc
reads and writes; the declaration itself lives in metadata.h, outside src/,
so the initial values are modelled from the spec's data model: error message
absent (empty), density 0 = absent, orientation 0 = absent, exif/icc length
0 = absent, no blob allocated. -/
structure MetadataBaton where
  err : String := ""
  format : String := ""
  width : Nat := 0
  height : Nat := 0
  space : String := ""
  channels : Nat := 0
  density : Nat := 0
  hasProfile : Bool := false
  hasAlpha : Bool := false
  orientation : Nat := 0
  exif : Option (List Nat) := none
  exifLength : Nat := 0
  icc : Option (List Nat) := none
  iccLength : Nat := 0
  deriving DecidableEq, Repr

/-- The baton records an error (spec: "error message (absent = success)";
metadata.cc tests `!baton->err.empty()` at line 81). -/
def MetadataBaton.errorPresent (b : MetadataBaton) : Prop := b.err ≠ ""

/-- The baton carries valid metadata: its format field has been populated.
The unpopulated default is the empty string, and every identifier the decode
engine can attach is non-empty, so this is the spec's "format/width/height
valid" side of the invariant (width and height of a genuine image are copied
in the same assignment block, lines 39-44). -/
def MetadataBaton.metadataValid (b : MetadataBaton) : Prop := b.format ≠ ""

/-- Observable side effects performed by `MetadataWorker::Execute`, in
program order: the atomic counter decrement (line 28), the decode-engine
header-open call (line 33), the metadata-population block (lines 38-67), and
the two cleanup calls `vips_error_clear` (line 71) and
`vips_thread_shutdown` (line 72). -/
inductive ExecEvent where
  | decrementCounter
  | openInputCall
  | readMetadata
  | clearError
  | threadShutdown
  deriving DecidableEq, Repr

/-- Embeds `MetadataWorker::Execute` (metadata.cc lines 26-73).  The decode
engine call `sharp::OpenInput` (common.cc, outside src/) is passed in as its
outcome `openResult`: `Except.error` is the thrown `vips::VError` caught at
line 34, `Except.ok` is the opened image together with the detected type.
Mirrors the source exactly: `imageType` starts as `UNKNOWN` and is only
assigned when the open returns (line 31-33); on a caught error the message is
appended to the baton's error field (line 35); the population block runs iff
the type is not `UNKNOWN` (line 37); density is written only when
`HasDensity` holds (lines 45-47); EXIF/ICC bytes are copied with their
lengths only when the corresponding blob is attached (lines 53-67); the two
cleanup calls run unconditionally (lines 71-72).  Returns the updated baton
together with the ordered trace of side effects. -/
def Execute (openResult : Except VError (VImage × ImageType))
    (baton : MetadataBaton) : MetadataBaton × List ExecEvent :=
  let opened : VImage × ImageType × MetadataBaton :=
    match openResult with
    | Except.ok (image, t) => (image, t, baton)
    | Except.error e =>
        (defaultVImage, ImageType.UNKNOWN, { baton with err := baton.err ++ e.what })
  let image := opened.1
  let imageType := opened.2.1
  let b := opened.2.2
  if imageType ≠ ImageType.UNKNOWN then
    ({ b with
        format := ImageTypeId imageType
        width := image.width
        height := image.height
        space := image.interpretationNick
        channels := image.bands
        density := if HasDensity image then GetDensity image else b.density
        hasProfile := HasProfile image
        hasAlpha := HasAlpha image
        orientation := ExifOrientation image
        exif := match image.exifBlob with
          | some blob => some blob
          | none => b.exif
        exifLength := match image.exifBlob with
          | some blob => blob.length
          | none => b.exifLength
        icc := match image.iccBlob with
          | some blob => some blob
          | none => b.icc
        iccLength := match image.iccBlob with
          | some blob => blob.length
          | none => b.iccLength },
     [ExecEvent.decrementCounter, ExecEvent.openInputCall, ExecEvent.readMetadata,
      ExecEvent.clearError, ExecEvent.threadShutdown])
  else
    (b, [ExecEvent.decrementCounter, ExecEvent.openInputCall,
         ExecEvent.clearError, ExecEvent.threadShutdown])

/-- A JavaScript value stored into the metadata result object by
`HandleOKCallback`: strings, unsigned integers, booleans, byte buffers. -/
inductive JSValue where
  | str (s : String)
  | uint (n : Nat)
  | bool (b : Bool)
  | buffer (bytes : List Nat)
  deriving DecidableEq, Repr

/-- An input buffer handle: the byte contents are irrelevant to the worker,
only identity and count matter for pinning. -/
abbrev Buffer := List Nat

/-- Embeds the metadata-object construction of `HandleOKCallback`
(metadata.cc lines 85-111) as the ordered list of `Set(info, key, value)`
calls: format, width, height, space, channels always; density only when
`> 0` (line 91); hasProfile and hasAlpha always; orientation only when `> 0`
(line 96); exif and icc buffers only when the captured length is `> 0`
(lines 99 and 105), carrying the stored bytes. -/
def BuildInfo (baton : MetadataBaton) : List (String × JSValue) :=
  [("format", JSValue.str baton.format),
   ("width", JSValue.uint baton.width),
   ("height", JSValue.uint baton.height),
   ("space", JSValue.str baton.space),
   ("channels", JSValue.uint baton.channels)]
  ++ (if baton.density > 0 then [("density", JSValue.uint baton.density)] else [])
  ++ [("hasProfile", JSValue.bool baton.hasProfile),
      ("hasAlpha", JSValue.bool baton.hasAlpha)]
  ++ (if baton.orientation > 0 then [("orientation", JSValue.uint baton.orientation)] else [])
  ++ (if baton.exifLength > 0 then [("exif", JSValue.buffer (baton.exif.getD []))] else [])
  ++ (if baton.iccLength > 0 then [("icc", JSValue.buffer (baton.icc.getD []))] else [])

/-- The keys of an assembled metadata record, in insertion order. -/
def infoKeys (info : List (String × JSValue)) : List String := info.map Prod.fst

/-- The two-slot argument vector `argv` passed to the completion callback
(metadata.cc line 80): slot 0 the error (as its message) or null, slot 1 the
metadata record or null. -/
structure CallbackArgs where
  error : Option String
  result : Option (List (String × JSValue))
  deriving DecidableEq, Repr

/-- Embeds the outcome-classification of `HandleOKCallback` (metadata.cc
lines 80-112): both slots start null; if the baton's error string is
non-empty, slot 0 becomes `Nan::Error` of the stored message; otherwise
slot 1 becomes the assembled metadata record. -/
def AssembleCallbackArgs (baton : MetadataBaton) : CallbackArgs :=
  if baton.err ≠ "" then { error := some baton.err, result := none }
  else { error := none, result := some (BuildInfo baton) }

/-- The `std::accumulate` pattern shared by the `MetadataWorker` constructor
(metadata.cc lines 17-22, `SaveToPersistent(index, buffer)`) and by
`HandleOKCallback` (lines 115-120, `GetFromPersistent(index)`): fold over the
buffer list carrying a running index that starts at 0, visiting each
(index, buffer) pair once; returns the visited indices in visit order. -/
def accumulateIndices (buffers : List Buffer) : List Nat :=
  (buffers.foldl (fun acc _ => (acc.1 ++ [acc.2], acc.2 + 1)) (([] : List Nat), 0)).1

/-- The indices at which the constructor pins the input buffers
(`SaveToPersistent`, metadata.cc lines 16-22), in pin order. -/
def pinIndices (buffers : List Buffer) : List Nat := accumulateIndices buffers

/-- The indices at which `HandleOKCallback` releases the persistent wrappers
(`GetFromPersistent`, metadata.cc lines 114-120), in release order. -/
def unpinIndices (buffers : List Buffer) : List Nat := accumulateIndices buffers

/-- Observable completion-side effects of `HandleOKCallback`, in program
order: releasing the persistent wrapper of the buffer at an index (lines
115-120), `delete baton->input` (line 121), `delete baton` (line 122), and
the callback invocation with its argument pair (line 125). -/
inductive CompletionEvent where
  | unpin (index : Nat)
  | freeInput
  | freeBaton
  | invokeCallback (args : CallbackArgs)
  deriving DecidableEq, Repr

/-- Recognizes the callback-invocation event. -/
def isCallbackInvocation : CompletionEvent → Bool
  | CompletionEvent.invokeCallback _ => true
  | _ => false

/-- Projects an unpin event to its index. -/
def unpinIdx : CompletionEvent → Option Nat
  | CompletionEvent.unpin i => some i
  | _ => none

/-- Embeds `MetadataWorker::HandleOKCallback` (metadata.cc lines 75-126) as
its ordered trace of completion effects: the argument pair is assembled from
the baton (lines 80-112), then every persistent buffer wrapper is released in
index order (lines 114-120), then the input descriptor is deleted (line 121),
then the baton is deleted (line 122), and finally the callback is invoked
with the pair (line 125). -/
def HandleOKCallback (buffersToPersist : List Buffer) (baton : MetadataBaton) :
    List CompletionEvent :=
  (unpinIndices buffersToPersist).map CompletionEvent.unpin
    ++ [CompletionEvent.freeInput, CompletionEvent.freeBaton,
        CompletionEvent.invokeCallback (AssembleCallbackArgs baton)]

/-- Observable side effects of the submission entry point
`NAN_METHOD(metadata)` (metadata.cc lines 136-153), in program order. -/
inductive SubmissionEvent where
  | createInputDescriptor
  | queueWorker
  | incrementCounter
  deriving DecidableEq, Repr

/-- Embeds `NAN_METHOD(metadata)` (metadata.cc lines 136-153) as the ordered
trace of its side effects: the input descriptor is built and the input
buffers pinned (line 145), the worker is queued onto the pool (line 149), and
the queued-task counter is incremented (line 152) — in that order. -/
def metadata : List SubmissionEvent :=
  [SubmissionEvent.createInputDescriptor, SubmissionEvent.queueWorker,
   SubmissionEvent.incrementCounter]

/-- A concrete well-formed image handle used to instantiate universally
quantified theorems on the success path. -/
def sampleImage : VImage :=
  { width := 2, height := 3, interpretationNick := "srgb", bands := 4,
    densityMeta := some 72, profileMeta := true, alphaMeta := true,
    orientationMeta := 1, exifBlob := none, iccBlob := none }

/-- A concrete image handle carrying EXIF and ICC blobs. -/
def blobImage : VImage :=
  { width := 8, height := 8, interpretationNick := "srgb", bands := 3,
    densityMeta := none, profileMeta := false, alphaMeta := false,
    orientationMeta := 0, exifBlob := some [4, 5, 6], iccBlob := some [7] }

/-- A concrete image handle for the anomalous open-succeeded-yet-unknown
state. -/
def anomalousImage : VImage :=
  { width := 640, height := 480, interpretationNick := "srgb", bands := 3,
    densityMeta := none, profileMeta := false, alphaMeta := false,
    orientationMeta := 0, exifBlob := none, iccBlob := none }

theorem Execute_error (e : VError) (baton : MetadataBaton) :
    Execute (Except.error e) baton =
      ({ baton with err := baton.err ++ e.what },
       [ExecEvent.decrementCounter, ExecEvent.openInputCall,
        ExecEvent.clearError, ExecEvent.threadShutdown]) := by
  simp [Execute]

theorem Execute_ok_unknown (image : VImage) (baton : MetadataBaton) :
    Execute (Except.ok (image, ImageType.UNKNOWN)) baton =
      (baton,
       [ExecEvent.decrementCounter, ExecEvent.openInputCall,
        ExecEvent.clearError, ExecEvent.threadShutdown]) := by
  simp [Execute]

theorem Execute_ok_known (image : VImage) (t : ImageType) (baton : MetadataBaton)
    (h : t ≠ ImageType.UNKNOWN) :
    Execute (Except.ok (image, t)) baton =
      ({ baton with
          format := ImageTypeId t
          width := image.width
          height := image.height
          space := image.interpretationNick
          channels := image.bands
          density := if HasDensity image then GetDensity image else baton.density
          hasProfile := HasProfile image
          hasAlpha := HasAlpha image
          orientation := ExifOrientation image
          exif := match image.exifBlob with
            | some blob => some blob
            | none => baton.exif
          exifLength := match image.exifBlob with
            | some blob => blob.length
            | none => baton.exifLength
          icc := match image.iccBlob with
            | some blob => some blob
            | none => baton.icc
          iccLength := match image.iccBlob with
            | some blob => blob.length
            | none => baton.iccLength },
       [ExecEvent.decrementCounter, ExecEvent.openInputCall, ExecEvent.readMetadata,
        ExecEvent.clearError, ExecEvent.threadShutdown]) := by
  simp [Execute, h]

theorem ImageTypeId_ne_empty (t : ImageType) : ImageTypeId t ≠ "" := by
  cases t <;> simp [ImageTypeId]

theorem accumulateIndices_go (buffers : List Buffer) :
    ∀ (acc : List Nat) (i : Nat),
      (buffers.foldl (fun acc _ => (acc.1 ++ [acc.2], acc.2 + 1)) (acc, i)).1
        = acc ++ (List.range buffers.length).map (· + i) := by
  induction buffers with
  | nil => intro acc i; simp
  | cons b bs ih =>
      intro acc i
      simp only [List.foldl_cons, List.length_cons]
      rw [ih]
      rw [List.range_succ_eq_map]
      simp [List.append_assoc, Function.comp, Nat.succ_eq_add_one]
      intro a _
      omega

theorem accumulateIndices_eq_range (buffers : List Buffer) :
    accumulateIndices buffers = List.range buffers.length := by
  have h := accumulateIndices_go buffers [] 0
  simpa [accumulateIndices] using h

/-- C2: the completion callback is invoked with a mutually exclusive pair:
when the baton's error field is non-empty the pair is (the stored message,
null) and no metadata record is built; otherwise it is (null, the metadata
record).  Exactly one slot is populated. -/
theorem callback_pair_mutually_exclusive (baton : MetadataBaton) :
    (AssembleCallbackArgs baton).error
        = (if baton.err = "" then none else some baton.err)
  ∧ (AssembleCallbackArgs baton).result
        = (if baton.err = "" then some (BuildInfo baton) else none)
  ∧ (AssembleCallbackArgs baton).error.isSome
        = !(AssembleCallbackArgs baton).result.isSome := by
  by_cases h : baton.err = "" <;> simp [AssembleCallbackArgs, h]

/-- C3: when the decode engine's header-open fails, the failure is caught at
the task boundary (the embedding of Execute is a total function, so the fault
cannot propagate), the failure message is appended to the baton's error
field, every other baton field is left untouched (the metadata-reading steps
are skipped), and the trace contains no metadata-read, only the decrement,
the open attempt, and the two unconditional cleanup steps. -/
theorem open_failure_records_message_and_skips_reads (e : VError)
    (baton : MetadataBaton) :
    (Execute (Except.error e) baton).1 = { baton with err := baton.err ++ e.what }
  ∧ (Execute (Except.error e) baton).2
      = [ExecEvent.decrementCounter, ExecEvent.openInputCall,
         ExecEvent.clearError, ExecEvent.threadShutdown] := by
  rw [Execute_error]
  exact ⟨rfl, rfl⟩

/-- C8: the cleanup step (clearing the decode engine's error state and
shutting down its thread-local resources) runs exactly once on every exit
path of the execution body, success or failure, and always as the final two
effects. -/
theorem cleanup_runs_on_every_path (openResult : Except VError (VImage × ImageType))
    (baton : MetadataBaton) :
    ((Execute openResult baton).2).count ExecEvent.clearError = 1
  ∧ ((Execute openResult baton).2).count ExecEvent.threadShutdown = 1
  ∧ ∃ p, (Execute openResult baton).2
        = p ++ [ExecEvent.clearError, ExecEvent.threadShutdown] := by
  rcases openResult with e | ⟨image, t⟩
  · rw [Execute_error]
    exact ⟨rfl, rfl,
      ⟨[ExecEvent.decrementCounter, ExecEvent.openInputCall], rfl⟩⟩
  · by_cases ht : t = ImageType.UNKNOWN
    · subst ht
      rw [Execute_ok_unknown]
      exact ⟨rfl, rfl,
        ⟨[ExecEvent.decrementCounter, ExecEvent.openInputCall], rfl⟩⟩
    · rw [Execute_ok_known image t baton ht]
      exact ⟨rfl, rfl,
        ⟨[ExecEvent.decrementCounter, ExecEvent.openInputCall,
          ExecEvent.readMetadata], rfl⟩⟩

/-- C6 (counterexample): the claim places the TaskCounter increment before
the worker is queued, but in the submission trace of NAN_METHOD(metadata)
the queueing (line 149) strictly precedes the increment (line 152). -/
theorem increment_after_queue_counterexample :
    ¬ (List.indexOf SubmissionEvent.incrementCounter metadata
        < List.indexOf SubmissionEvent.queueWorker metadata)
  ∧ List.indexOf SubmissionEvent.queueWorker metadata
      < List.indexOf SubmissionEvent.incrementCounter metadata := by
  decide

/-- C6 (amended): the TaskCounter is incremented exactly once at submission —
immediately after the task is queued, not before — and decremented exactly
once at the very start of execution on the worker thread, so each task
contributes a net zero change once it begins executing. -/
theorem counter_inc_once_dec_once (openResult : Except VError (VImage × ImageType))
    (baton : MetadataBaton) :
    metadata.count SubmissionEvent.incrementCounter = 1
  ∧ List.indexOf SubmissionEvent.queueWorker metadata
      < List.indexOf SubmissionEvent.incrementCounter metadata
  ∧ ((Execute openResult baton).2).count ExecEvent.decrementCounter = 1
  ∧ ((Execute openResult baton).2).head? = some ExecEvent.decrementCounter := by
  refine ⟨by decide, by decide, ?_, ?_⟩ <;>
  · rcases openResult with e | ⟨image, t⟩
    · rw [Execute_error]; rfl
    · by_cases ht : t = ImageType.UNKNOWN
      · subst ht; rw [Execute_ok_unknown]; rfl
      · rw [Execute_ok_known image t baton ht]; rfl

/-- C10: the dispatcher classifies the outcome solely by non-emptiness of the
baton's error string; in particular a decode-engine failure whose message is
the empty string leaves the error field empty, so the callback receives a
success outcome (null error, metadata record present) rather than an error. -/
theorem outcome_classified_by_error_nonempty (baton : MetadataBaton) :
    (AssembleCallbackArgs baton).error.isSome = !(baton.err == "")
  ∧ (AssembleCallbackArgs (Execute (Except.error { what := "" }) {}).1).error = none
  ∧ (AssembleCallbackArgs (Execute (Except.error { what := "" }) {}).1).result.isSome
      = true := by
  refine ⟨?_, ?_, ?_⟩
  · by_cases h : baton.err = "" <;> simp [AssembleCallbackArgs, h]
  · decide
  · decide

/-- C1 (counterexample): when the header-open succeeds yet reports the
unknown format, the execution body records no error and populates no
metadata, so the baton ends with neither an error present nor valid
format/width/height, and the dispatcher delivers a (partial) success result
— refuting both halves of the claim at this concrete input. -/
theorem unknown_format_open_counterexample :
    ¬ ((Execute (Except.ok (anomalousImage, ImageType.UNKNOWN)) {}).1).errorPresent
  ∧ ¬ ((Execute (Except.ok (anomalousImage, ImageType.UNKNOWN)) {}).1).metadataValid
  ∧ (AssembleCallbackArgs
      ((Execute (Except.ok (anomalousImage, ImageType.UNKNOWN)) {}).1)).result.isSome
      = true := by
  refine ⟨?_, ?_, ?_⟩ <;>
    simp [Execute_ok_unknown, MetadataBaton.errorPresent, MetadataBaton.metadataValid,
      AssembleCallbackArgs]

/-- C1 (amended): provided the decode engine's open result is either a
failure with a non-empty message or a success with a recognized (non-UNKNOWN)
format — which the spec's engine contract guarantees, since an unsupported
format is a DecodeFailure — the completed baton satisfies the invariant:
exactly one of {error present} or {metadata valid} holds, never both, never
neither. -/
theorem baton_error_xor_metadata_valid (openResult : Except VError (VImage × ImageType))
    (hok : ∀ image t, openResult = Except.ok (image, t) → t ≠ ImageType.UNKNOWN)
    (herr : ∀ e, openResult = Except.error e → e.what ≠ "") :
    (((Execute openResult {}).1).errorPresent
        ∧ ¬ ((Execute openResult {}).1).metadataValid)
    ∨ (¬ ((Execute openResult {}).1).errorPresent
        ∧ ((Execute openResult {}).1).metadataValid) := by
  rcases openResult with e | ⟨image, t⟩
  · left
    have hw := herr e rfl
    rw [Execute_error]
    constructor
    · simpa [MetadataBaton.errorPresent] using hw
    · simp [MetadataBaton.metadataValid]
  · right
    have ht := hok image t rfl
    rw [Execute_ok_known image t {} ht]
    constructor
    · simp [MetadataBaton.errorPresent]
    · simpa [MetadataBaton.metadataValid] using ImageTypeId_ne_empty t

/-- C1 (witness): the amended invariant instantiated at a concrete
successful open of a JPEG image. -/
theorem baton_error_xor_metadata_valid_witness :
    (((Execute (Except.ok (sampleImage, ImageType.JPEG)) {}).1).errorPresent
        ∧ ¬ ((Execute (Except.ok (sampleImage, ImageType.JPEG)) {}).1).metadataValid)
    ∨ (¬ ((Execute (Except.ok (sampleImage, ImageType.JPEG)) {}).1).errorPresent
        ∧ ((Execute (Except.ok (sampleImage, ImageType.JPEG)) {}).1).metadataValid) :=
  baton_error_xor_metadata_valid (Except.ok (sampleImage, ImageType.JPEG))
    (by intro image t h; cases h; decide)
    (by intro e h; exact Except.noConfusion h)

/-- C4: a successful task's metadata record always contains format, width,
height, space, channels, hasProfile and hasAlpha, contains density iff the
baton's density is positive, orientation iff positive, exif iff the captured
exif length is positive, icc iff the captured icc length is positive; and
the baton's density is written only when the decode engine reports density
metadata present, otherwise it stays 0. -/
theorem metadata_record_field_presence (baton : MetadataBaton) (image : VImage)
    (t : ImageType) (h : t ≠ ImageType.UNKNOWN) :
    (infoKeys (BuildInfo baton)).count "format" = 1
  ∧ (infoKeys (BuildInfo baton)).count "width" = 1
  ∧ (infoKeys (BuildInfo baton)).count "height" = 1
  ∧ (infoKeys (BuildInfo baton)).count "space" = 1
  ∧ (infoKeys (BuildInfo baton)).count "channels" = 1
  ∧ (infoKeys (BuildInfo baton)).count "hasProfile" = 1
  ∧ (infoKeys (BuildInfo baton)).count "hasAlpha" = 1
  ∧ (infoKeys (BuildInfo baton)).count "density"
      = (if baton.density > 0 then 1 else 0)
  ∧ (infoKeys (BuildInfo baton)).count "orientation"
      = (if baton.orientation > 0 then 1 else 0)
  ∧ (infoKeys (BuildInfo baton)).count "exif"
      = (if baton.exifLength > 0 then 1 else 0)
  ∧ (infoKeys (BuildInfo baton)).count "icc"
      = (if baton.iccLength > 0 then 1 else 0)
  ∧ ((Execute (Except.ok (image, t)) {}).1).density
      = (if HasDensity image then GetDensity image else 0) := by
  have hd : ((Execute (Except.ok (image, t)) {}).1).density
      = (if HasDensity image then GetDensity image else 0) := by
    rw [Execute_ok_known image t {} h]
  refine ⟨?_, ?_, ?_, ?_, ?_, ?_, ?_, ?_, ?_, ?_, ?_, hd⟩ <;>
    · unfold infoKeys BuildInfo
      split_ifs <;> rfl

/-- C4 (witness): the field-presence rules instantiated at the default
baton and a concrete JPEG open. -/
theorem metadata_record_field_presence_witness :
    (infoKeys (BuildInfo {})).count "format" = 1
  ∧ (infoKeys (BuildInfo {})).count "width" = 1
  ∧ (infoKeys (BuildInfo {})).count "height" = 1
  ∧ (infoKeys (BuildInfo {})).count "space" = 1
  ∧ (infoKeys (BuildInfo {})).count "channels" = 1
  ∧ (infoKeys (BuildInfo {})).count "hasProfile" = 1
  ∧ (infoKeys (BuildInfo {})).count "hasAlpha" = 1
  ∧ (infoKeys (BuildInfo {})).count "density"
      = (if ({} : MetadataBaton).density > 0 then 1 else 0)
  ∧ (infoKeys (BuildInfo {})).count "orientation"
      = (if ({} : MetadataBaton).orientation > 0 then 1 else 0)
  ∧ (infoKeys (BuildInfo {})).count "exif"
      = (if ({} : MetadataBaton).exifLength > 0 then 1 else 0)
  ∧ (infoKeys (BuildInfo {})).count "icc"
      = (if ({} : MetadataBaton).iccLength > 0 then 1 else 0)
  ∧ ((Execute (Except.ok (sampleImage, ImageType.JPEG)) {}).1).density
      = (if HasDensity sampleImage then GetDensity sampleImage else 0) :=
  metadata_record_field_presence {} sampleImage ImageType.JPEG (by decide)

/-- C5: on a successful open, the EXIF (resp. ICC) blob attached to the
image is copied byte-for-byte into the baton and its exact byte length is
recorded; an absent blob leaves the stored blob absent (no allocation) and
the length at 0. -/
theorem exif_icc_blobs_roundtrip (image : VImage) (t : ImageType)
    (h : t ≠ ImageType.UNKNOWN) :
    ((Execute (Except.ok (image, t)) {}).1).exif = image.exifBlob
  ∧ ((Execute (Except.ok (image, t)) {}).1).exifLength
      = (image.exifBlob.map List.length).getD 0
  ∧ ((Execute (Except.ok (image, t)) {}).1).icc = image.iccBlob
  ∧ ((Execute (Except.ok (image, t)) {}).1).iccLength
      = (image.iccBlob.map List.length).getD 0 := by
  rw [Execute_ok_known image t {} h]
  rcases hx : image.exifBlob with _ | xb <;> rcases hy : image.iccBlob with _ | yb <;>
    simp [hx, hy]

/-- C5 (witness): the blob round-trip instantiated at a concrete image
carrying both an EXIF and an ICC blob. -/
theorem exif_icc_blobs_roundtrip_witness :
    ((Execute (Except.ok (blobImage, ImageType.PNG)) {}).1).exif = blobImage.exifBlob
  ∧ ((Execute (Except.ok (blobImage, ImageType.PNG)) {}).1).exifLength
      = (blobImage.exifBlob.map List.length).getD 0
  ∧ ((Execute (Except.ok (blobImage, ImageType.PNG)) {}).1).icc = blobImage.iccBlob
  ∧ ((Execute (Except.ok (blobImage, ImageType.PNG)) {}).1).iccLength
      = (blobImage.iccBlob.map List.length).getD 0 :=
  exif_icc_blobs_roundtrip blobImage ImageType.PNG (by decide)

/-- C7: the constructor pins the input buffers at indices 0, 1, ... in
order; the completion handler releases exactly the same indices in the same
order (each exactly once, no index repeated), so the pin count equals the
unpin count. -/
theorem pin_unpin_balanced_in_order (buffers : List Buffer) (baton : MetadataBaton) :
    pinIndices buffers = List.range buffers.length
  ∧ unpinIndices buffers = pinIndices buffers
  ∧ (pinIndices buffers).Nodup
  ∧ (HandleOKCallback buffers baton).filterMap unpinIdx = pinIndices buffers
  ∧ (pinIndices buffers).length = (unpinIndices buffers).length := by
  refine ⟨accumulateIndices_eq_range buffers, rfl, ?_, ?_, rfl⟩
  · rw [pinIndices, accumulateIndices_eq_range]
    exact List.nodup_range _
  · rw [HandleOKCallback]
    have hcomp : (unpinIdx ∘ CompletionEvent.unpin) = some := rfl
    simp only [List.filterMap_append, List.filterMap_map, hcomp,
      List.filterMap_some, unpinIndices, pinIndices]
    simp [unpinIdx]

/-- C9: at completion the trace is exactly — unpin each pinned buffer in
original index order, then free the input descriptor, then free the baton,
and only after all of these invoke the callback with the assembled pair; the
callback invocation occurs exactly once. -/
theorem completion_event_order (buffers : List Buffer) (baton : MetadataBaton) :
    (HandleOKCallback buffers baton).take buffers.length
      = (List.range buffers.length).map CompletionEvent.unpin
  ∧ (HandleOKCallback buffers baton).drop buffers.length
      = [CompletionEvent.freeInput, CompletionEvent.freeBaton,
         CompletionEvent.invokeCallback (AssembleCallbackArgs baton)]
  ∧ (HandleOKCallback buffers baton).countP isCallbackInvocation = 1 := by
  have hu : unpinIndices buffers = List.range buffers.length :=
    accumulateIndices_eq_range buffers
  unfold HandleOKCallback
  rw [hu]
  have hlen : ((List.range buffers.length).map CompletionEvent.unpin).length
      = buffers.length := by simp
  refine ⟨?_, ?_, ?_⟩
  · exact List.take_left' hlen
  · exact List.drop_left' hlen
  · simp [List.countP_append, List.countP_map, isCallbackInvocation, Function.comp]

end Sharp
